import Mathlib

/-!
Verification of the Blood Resource Allocation and Audit Ledger core.

This file shallowly embeds the relevant JavaScript source of the repository:

* the `Audit` model class (collection `audit_logs`) from
  `Backend/models/admin/Hospital.js`;
* the `Alert` model class (collection `alerts`) from
  `Backend/models/admin/Alert.js`;
* the `BloodBank` model class and the blood-bank controller handlers
  (`updateBloodStock`, `getStockStatus`, `verifyBloodBank`) from the
  blood-bank model/controller source file;
* the hospital-blood-request controller (`fulfillRequest`) from
  `Backend/controllers/admin/HospitalBloodRequestController.js`;
* the NGO-drive controller (`completeDrive`) from the drive controller
  source file.

Model classes that the controllers call but whose files are not among the
sources (`HospitalBloodRequest`, `BloodBankNgoDrive`, `BloodStock`,
`BloodBankAdminAction`, and the `BloodBank.updateBloodStock` method) are
modelled from the specification; each such definition carries a doc comment
starting with `Modelled from the spec:`.

JavaScript `Date`-valued metadata fields (`createdAt`, `updatedAt`,
`lastUpdated`, IP addresses, user agents) are omitted: no claim is about
wall-clock values.  Database documents are keyed by `Nat` in place of Mongo
`ObjectId` strings.
-/

/-- The eight enumerated blood groups. -/
inductive BloodGroup
  | APos | ANeg | BPos | BNeg | ABPos | ABNeg | OPos | ONeg
deriving DecidableEq, Repr, Fintype

/-- Stock status classification, as returned by `getStockStatus`. -/
inductive StockStatus
  | CRITICAL | LOW | MEDIUM | HEALTHY
deriving DecidableEq, Repr

/-- `getStockStatus` from the blood-bank controller source:
`units < 5 → CRITICAL, < 10 → LOW, < 20 → MEDIUM, else HEALTHY`. -/
def getStockStatus (units : Int) : StockStatus :=
  if units < 5 then .CRITICAL
  else if units < 10 then .LOW
  else if units < 20 then .MEDIUM
  else .HEALTHY

/-- JavaScript `x || dflt` on an optional string: `undefined`/`null`
(`none`) and the empty string are falsy and give the default. -/
def jsOrString (v : Option String) (dflt : String) : String :=
  match v with
  | none => dflt
  | some s => if s = "" then dflt else s

/-! ### Alert model (`Backend/models/admin/Alert.js`) -/

/-- Input payload (`alertData`) accepted by `Alert.create`.  Fields read by
the method; `severity` and `relatedEntityType` may be absent. -/
structure AlertInput where
  type : String
  title : String
  message : String
  severity : Option String
  relatedEntityType : Option String
  createdBy : String
deriving DecidableEq, Repr

/-- A stored alert document, as built by `Alert.create`. -/
structure AlertDoc where
  type : String
  title : String
  message : String
  severity : String
  relatedEntityType : Option String
  isRead : Bool
  readAt : Option Nat
  createdBy : String
  status : String
deriving DecidableEq, Repr

namespace Alert

/-- `Alert.create` from `Backend/models/admin/Alert.js`: builds the new
alert document (`severity: alertData.severity || "MEDIUM"`, `isRead: false`,
`readAt: null`, `status: "ACTIVE"`) and inserts it. -/
def create (alertData : AlertInput) : AlertDoc :=
  { type := alertData.type
    title := alertData.title
    message := alertData.message
    severity := jsOrString alertData.severity ("MEDIUM")
    relatedEntityType := alertData.relatedEntityType
    isRead := false
    readAt := none
    createdBy := alertData.createdBy
    status := ("ACTIVE") }

end Alert

/-! ### Audit model (`Backend/models/admin/Hospital.js`, audit part) -/

/-- A stored audit log document (collection `audit_logs`). -/
structure AuditEntry where
  entityType : String
  action : String
  performedBy : String
  performedByRole : String
  entityId : Option Nat
  entityCode : Option String
  timestamp : Nat
  status : String
  description : String
deriving DecidableEq, Repr

/-- Input payload (`auditData`) accepted by `Audit.create`;
`status` may be absent and defaults to `"SUCCESS"`. -/
structure AuditData where
  entityType : String
  action : String
  performedBy : String
  performedByRole : String
  entityId : Option Nat
  entityCode : Option String
  status : Option String
  description : String
deriving DecidableEq, Repr

/-- Filters accepted by `Audit.findAll`. -/
structure AuditFilters where
  entityType : Option String
  action : Option String
  performedBy : Option String
  performedByRole : Option String
  status : Option String
  dateFrom : Option Nat
  dateTo : Option Nat
deriving DecidableEq, Repr

/-- Result shape of the paginated audit read queries. -/
structure AuditQueryResult where
  logs : List AuditEntry
  total : Nat
deriving DecidableEq, Repr

/-- A single optional equality filter of a Mongo query object. -/
def optFilter (flt : Option String) (v : String) : Bool :=
  match flt with
  | none => true
  | some x => v == x

/-- The Mongo query object built by `Audit.findAll`: every supplied filter
must match; `performedBy` is lowercased by the source before matching;
`dateFrom`/`dateTo` become a `$gte`/`$lte` range on `timestamp`. -/
def auditMatches (f : AuditFilters) (e : AuditEntry) : Bool :=
  optFilter f.entityType e.entityType &&
  optFilter f.action e.action &&
  (match f.performedBy with
   | none => true
   | some p => e.performedBy == p.toLower) &&
  optFilter f.performedByRole e.performedByRole &&
  optFilter f.status e.status &&
  (match f.dateFrom with
   | none => true
   | some t => t ≤ e.timestamp) &&
  (match f.dateTo with
   | none => true
   | some t => e.timestamp ≤ t)

/-- Mongo `.sort(\x7b timestamp: -1 \x7d)`: stable sort, newest first. -/
def newestFirst (l : List AuditEntry) : List AuditEntry :=
  l.mergeSort (fun a b => decide (b.timestamp ≤ a.timestamp))

namespace Audit

/-- `Audit.create`: builds the new log document (`status` defaulting to
`"SUCCESS"`) and appends it to the collection (`insertOne`).  The caller
supplies the clock value `now` (`new Date()`). -/
def create (logs : List AuditEntry) (auditData : AuditData) (now : Nat) :
    List AuditEntry :=
  logs ++ [{ entityType := auditData.entityType
             action := auditData.action
             performedBy := auditData.performedBy
             performedByRole := auditData.performedByRole
             entityId := auditData.entityId
             entityCode := auditData.entityCode
             timestamp := now
             status := jsOrString auditData.status ("SUCCESS")
             description := auditData.description }]

/-- `Audit.findAll`: filter, sort `timestamp: -1`, skip `(page-1)*limit`,
take `limit`. -/
def findAll (logs : List AuditEntry) (f : AuditFilters) (page limit : Nat) :
    AuditQueryResult :=
  let q := logs.filter (auditMatches f)
  { logs := ((newestFirst q).drop ((page - 1) * limit)).take limit
    total := q.length }

/-- `Audit.findByEntityId`: filter on `entityId`, sort `timestamp: -1`,
skip `(page-1)*limit`, take `limit`. -/
def findByEntityId (logs : List AuditEntry) (entityId : Nat)
    (page limit : Nat) : AuditQueryResult :=
  let q := logs.filter (fun e => e.entityId == some entityId)
  { logs := ((newestFirst q).drop ((page - 1) * limit)).take limit
    total := q.length }

/-- `Audit.findByEntityType`: same shape, filter on `entityType`. -/
def findByEntityType (logs : List AuditEntry) (entityType : String)
    (page limit : Nat) : AuditQueryResult :=
  let q := logs.filter (fun e => e.entityType == entityType)
  { logs := ((newestFirst q).drop ((page - 1) * limit)).take limit
    total := q.length }

/-- `Audit.findByAction`: same shape, filter on `action`. -/
def findByAction (logs : List AuditEntry) (action : String)
    (page limit : Nat) : AuditQueryResult :=
  let q := logs.filter (fun e => e.action == action)
  { logs := ((newestFirst q).drop ((page - 1) * limit)).take limit
    total := q.length }

/-- `Audit.findByEntityCode`: same shape, filter on `entityCode`. -/
def findByEntityCode (logs : List AuditEntry) (entityCode : String)
    (page limit : Nat) : AuditQueryResult :=
  let q := logs.filter (fun e => e.entityCode == some entityCode)
  { logs := ((newestFirst q).drop ((page - 1) * limit)).take limit
    total := q.length }

/-- `Audit.getRecentActivity`: sort `timestamp: -1`, take `limit`. -/
def getRecentActivity (logs : List AuditEntry) (limit : Nat) :
    List AuditEntry :=
  (newestFirst logs).take limit

end Audit

/-- The complete method surface of the `Audit` model class, one constructor
per method: `create` is the only writer, everything else
(`findAll`, `findById`, `findByEntityType`, `findByAction`,
`findByEntityId`, `getStats`, `getRecentActivity`, `countByEntityType`,
`findByEntityCode`) only reads the collection.  The class has no update and
no delete method. -/
inductive AuditOp
  | create (auditData : AuditData) (now : Nat)
  | findAll (f : AuditFilters) (page limit : Nat)
  | findById (logId : Nat)
  | findByEntityType (entityType : String) (page limit : Nat)
  | findByAction (action : String) (page limit : Nat)
  | findByEntityId (entityId : Nat) (page limit : Nat)
  | getStats (dateFrom dateTo : Option Nat)
  | getRecentActivity (limit : Nat)
  | countByEntityType (entityType : String)
  | findByEntityCode (entityCode : String) (page limit : Nat)
deriving DecidableEq, Repr

/-- Effect of one `Audit` method on the `audit_logs` collection:
`create` appends (`insertOne`); every read method leaves it unchanged. -/
def auditStep (logs : List AuditEntry) : AuditOp → List AuditEntry
  | .create d now => Audit.create logs d now
  | _ => logs

/-- Running a sequence of `Audit` methods against the collection. -/
def auditRun (logs : List AuditEntry) : List AuditOp → List AuditEntry
  | [] => logs
  | op :: ops => auditRun (auditStep logs op) ops

/-! ### Shared store: documents and collections

Mongo collections become association lists keyed by `Nat` document id;
`findOne`/`findById` becomes `lookupDoc`, `updateOne` becomes `updateAssoc`
(first matching document only, as in Mongo). -/

/-- `findOne` by id on an association-list collection. -/
def lookupDoc {α : Type} (k : Nat) : List (Nat × α) → Option α
  | [] => none
  | (key, v) :: rest => if key = k then some v else lookupDoc k rest

/-- `updateOne` by id: applies `f` to the first document with key `k`. -/
def updateAssoc {α : Type} (k : Nat) (f : α → α) :
    List (Nat × α) → List (Nat × α)
  | [] => []
  | (key, v) :: rest =>
      if key = k then (key, f v) :: rest
      else (key, v) :: updateAssoc k f rest

/-- Embedded per-blood-group stock document of one blood bank
(collection `blood_stock`): a counter for each of the eight groups. -/
structure StockDoc where
  aPos : Int
  aNeg : Int
  bPos : Int
  bNeg : Int
  abPos : Int
  abNeg : Int
  oPos : Int
  oNeg : Int
deriving DecidableEq, Repr

/-- Read one group's counter. -/
def StockDoc.getUnits (d : StockDoc) : BloodGroup → Int
  | .APos => d.aPos
  | .ANeg => d.aNeg
  | .BPos => d.bPos
  | .BNeg => d.bNeg
  | .ABPos => d.abPos
  | .ABNeg => d.abNeg
  | .OPos => d.oPos
  | .ONeg => d.oNeg

/-- Write one group's counter. -/
def StockDoc.setUnits (d : StockDoc) (g : BloodGroup) (v : Int) : StockDoc :=
  match g with
  | .APos => { d with aPos := v }
  | .ANeg => { d with aNeg := v }
  | .BPos => { d with bPos := v }
  | .BNeg => { d with bNeg := v }
  | .ABPos => { d with abPos := v }
  | .ABNeg => { d with abNeg := v }
  | .OPos => { d with oPos := v }
  | .ONeg => { d with oNeg := v }

/-- The all-zero stock document created by `BloodStock.create`. -/
def zeroStock : StockDoc :=
  { aPos := 0, aNeg := 0, bPos := 0, bNeg := 0
    abPos := 0, abNeg := 0, oPos := 0, oNeg := 0 }

/-- A blood-bank document (collection `organizations`, `type: "bloodbank"`):
the fields the verified claims read or write.  The `statistics` sub-object
is flattened into the four counters used by the controllers. -/
structure BankDoc where
  status : String
  isActive : Bool
  verifiedBy : Option Nat
  totalDonationsReceived : Int
  totalUnitsDistributed : Int
  totalNgoDrivesSupported : Int
  totalHospitalRequestsFulfilled : Int
deriving DecidableEq, Repr

/-- A hospital blood-request document: the fields read by the
fulfillment path. -/
structure RequestDoc where
  status : String
  bloodGroup : BloodGroup
  unitsRequested : Int
  unitsFulfilled : Int
  urgency : String
  bloodBankId : Option Nat
deriving DecidableEq, Repr

/-- An NGO donation-drive document: the fields read by the completion
path.  `collectedUnits` is the insertion-ordered entry list of the
per-group map (`Object.entries`). -/
structure DriveDoc where
  status : String
  bloodBankId : Option Nat
  collectedUnits : List (BloodGroup × Int)
  totalUnitsCollected : Int
  totalDonorsParticipated : Int
deriving DecidableEq, Repr

/-- A `BloodBankAdminAction` audit record, as built by the
`verifyBloodBank` controller (`Date`/IP metadata omitted). -/
structure AdminActionEntry where
  bloodBankId : Nat
  adminId : Nat
  actionType : String
  reason : Option String
  previousStatus : String
  newStatus : String
deriving DecidableEq, Repr

/-- The durable state touched by the verified operations: the
`organizations` (blood-bank part), `blood_stock`, request, drive and
admin-action collections. -/
structure Store where
  banks : List (Nat × BankDoc)
  stocks : List (Nat × StockDoc)
  requests : List (Nat × RequestDoc)
  drives : List (Nat × DriveDoc)
  actions : List AdminActionEntry
deriving DecidableEq, Repr

/-- Error kinds surfaced by the Stock Ledger, following the spec taxonomy:
`insufficientStock` when an adjustment would drive a counter negative,
`notFoundErr` for an unknown blood bank / missing stock document. -/
inductive StockErr
  | insufficientStock
  | notFoundErr
deriving DecidableEq, Repr

/-- Shape of a controller JSON response: HTTP status, `success` flag,
`message`, and the surfaced error kind for caught exceptions. -/
structure ApiResp where
  status : Nat
  success : Bool
  message : String
  errorKind : Option StockErr
deriving DecidableEq, Repr

/-- A success response. -/
def okResp (code : Nat) (msg : String) : ApiResp :=
  { status := code, success := true, message := msg, errorKind := none }

/-- An error response produced by an explicit early return. -/
def failResp (code : Nat) (msg : String) : ApiResp :=
  { status := code, success := false, message := msg, errorKind := none }

/-- The 500 response produced by a controller `catch` block; it carries
the message of the caught error. -/
def caughtResp (msg : String) (e : StockErr) : ApiResp :=
  { status := 500, success := false, message := msg, errorKind := some e }

/-- The blood-group string validation list shared by the controllers. -/
def parseBloodGroup (s : String) : Option BloodGroup :=
  if s = "O+" then some .OPos
  else if s = "O-" then some .ONeg
  else if s = "A+" then some .APos
  else if s = "A-" then some .ANeg
  else if s = "B+" then some .BPos
  else if s = "B-" then some .BNeg
  else if s = "AB+" then some .ABPos
  else if s = "AB-" then some .ABNeg
  else none

/-! ### BloodBank model methods -/

/-- The four statistics counters incremented by the verified controllers. -/
inductive StatField
  | totalDonationsReceived
  | totalUnitsDistributed
  | totalNgoDrivesSupported
  | totalHospitalRequestsFulfilled
deriving DecidableEq, Repr

/-- `$inc` of one statistics counter on a bank document. -/
def incStat (f : StatField) (v : Int) (b : BankDoc) : BankDoc :=
  match f with
  | .totalDonationsReceived =>
      { b with totalDonationsReceived := b.totalDonationsReceived + v }
  | .totalUnitsDistributed =>
      { b with totalUnitsDistributed := b.totalUnitsDistributed + v }
  | .totalNgoDrivesSupported =>
      { b with totalNgoDrivesSupported := b.totalNgoDrivesSupported + v }
  | .totalHospitalRequestsFulfilled =>
      { b with totalHospitalRequestsFulfilled := b.totalHospitalRequestsFulfilled + v }

namespace BloodBank

/-- `BloodBank.verifyByAdmin` from the blood-bank model source: one
conditional update — match `_id` AND `status: "PENDING"`, set
`status: "VERIFIED"`, `isActive: true` and the verification metadata;
returns whether a document was modified. -/
def verifyByAdmin (s : Store) (id adminId : Nat) : Store × Bool :=
  match lookupDoc id s.banks with
  | some b =>
      if b.status = "PENDING" then
        let upd := fun (bb : BankDoc) =>
          { bb with status := "VERIFIED", isActive := true,
                    verifiedBy := some adminId }
        ({ s with banks := updateAssoc id upd s.banks }, true)
      else (s, false)
  | none => (s, false)

/-- `BloodBank.incrementStatistics` from the blood-bank model source:
`$inc` the named statistics field; returns whether a document was
modified (`false` when the bank does not exist). -/
def incrementStatistics (s : Store) (id : Nat) (f : StatField) (value : Int) :
    Store × Bool :=
  match lookupDoc id s.banks with
  | some _ => ({ s with banks := updateAssoc id (incStat f value) s.banks }, true)
  | none => (s, false)

/-- Modelled from the spec: `BloodBank.updateBloodStock(bloodBankId,
bloodGroup, delta)` is called by the fulfill and complete-drive
controllers but its definition is not among the sources.  Per the Stock
Ledger contract it applies the signed `delta` as one conditional update
(decrement only if the resulting value stays non-negative), returns
`InsufficientStockError` with no partial write when the result would be
negative, and `NotFoundError` for an unknown blood bank.  A returned
error is surfaced to the calling controller (its `catch` block).
The spec's on-success side effects (one `BLOOD_STOCK` AuditEntry write
and the threshold alert evaluation) are NOT modelled here; no verified
claim depends on their absence — only the counter arithmetic, the
conditional guard and the error taxonomy are used. -/
def updateBloodStock (s : Store) (bloodBankId : Nat) (g : BloodGroup)
    (delta : Int) : Except StockErr (Store × Int) :=
  match lookupDoc bloodBankId s.stocks with
  | none => .error .notFoundErr
  | some d =>
      let newUnits := d.getUnits g + delta
      if newUnits < 0 then .error .insufficientStock
      else
        let stocks2 := updateAssoc bloodBankId
          (fun dd => dd.setUnits g newUnits) s.stocks
        .ok ({ s with stocks := stocks2 }, newUnits)

end BloodBank

namespace BloodStock

/-- Modelled from the spec: `BloodStock.updateBloodGroupUnits(id,
bloodGroup, parsedUnits, updatedBy)` is called by the admin
`updateBloodStock` endpoint but its definition is not among the sources.
The endpoint response (`unitsNow: parsedUnits`, a manual correction)
shows an absolute write of the validated non-negative units value to the
group's counter; returns whether a stock document was modified. -/
def updateBloodGroupUnits (s : Store) (bloodBankId : Nat) (g : BloodGroup)
    (units : Int) : Store × Bool :=
  match lookupDoc bloodBankId s.stocks with
  | some _ =>
      let stocks2 := updateAssoc bloodBankId
        (fun dd => dd.setUnits g units) s.stocks
      ({ s with stocks := stocks2 }, true)
  | none => (s, false)

end BloodStock

namespace HospitalBloodRequest

/-- Modelled from the spec: `HospitalBloodRequest.fulfillRequest(id,
details)` is called by the fulfill controller but its definition is not
among the sources.  Per the spec it is the compare-and-swap status write:
it requires the current `status == "PROCESSING"`, positive
`unitsFulfilled` not exceeding `unitsRequested`, and in the same atomic
update sets `status := "FULFILLED"` and records `unitsFulfilled`;
it returns whether the guarded update matched (the controller maps
`false` to its 400 response).  It does not touch the Stock Ledger —
the calling controller performs the stock debit itself afterwards. -/
def fulfillRequest (s : Store) (id : Nat) (units : Int) : Store × Bool :=
  match lookupDoc id s.requests with
  | some r =>
      if r.status = "PROCESSING" ∧ 0 < units ∧ units ≤ r.unitsRequested then
        let upd := fun (rr : RequestDoc) =>
          { rr with status := "FULFILLED", unitsFulfilled := units }
        ({ s with requests := updateAssoc id upd s.requests }, true)
      else (s, false)
  | none => (s, false)

end HospitalBloodRequest

namespace BloodBankNgoDrive

/-- Modelled from the spec: `BloodBankNgoDrive.completeDrive(id, details)`
is called by the complete-drive controller but its definition is not
among the sources.  Per the spec it is the compare-and-swap status write:
valid only in `"ONGOING"`; in the same atomic update sets
`status := "COMPLETED"` and records `totalDonorsParticipated`; returns
whether the guarded update matched (the controller maps `false` to its
400 response).  It does not touch the Stock Ledger — the calling
controller performs the per-group credits itself afterwards. -/
def completeDrive (s : Store) (id : Nat) (donors : Int) : Store × Bool :=
  match lookupDoc id s.drives with
  | some d =>
      if d.status = "ONGOING" then
        let upd := fun (dd : DriveDoc) =>
          { dd with status := "COMPLETED", totalDonorsParticipated := donors }
        ({ s with drives := updateAssoc id upd s.drives }, true)
      else (s, false)
  | none => (s, false)

end BloodBankNgoDrive

namespace BloodBankAdminAction

/-- Modelled from the spec: `BloodBankAdminAction.create(entry)` is called
by the admin blood-bank controllers but its definition is not among the
sources.  Per the Audit Ledger contract it appends one immutable record
to the admin-action collection. -/
def create (s : Store) (e : AdminActionEntry) : Store :=
  { s with actions := s.actions ++ [e] }

end BloodBankAdminAction

/-! ### Controllers -/

namespace BloodBankController

/-- The admin `updateBloodStock` endpoint from the blood-bank controller
source: validates presence of `bloodGroup`/`units` (JS falsy check on
`bloodGroup`, `=== undefined` on `units`), membership of `bloodGroup` in
the eight-value list, and `units` being a non-negative number — each
rejection happens before any write; then requires the bank to exist,
creates the stock document if missing, and writes the group's counter
via `BloodStock.updateBloodGroupUnits`. -/
def updateBloodStock (s : Store) (id : Nat) (bloodGroup : Option String)
    (units : Option Int) : Store × ApiResp :=
  match bloodGroup, units with
  | none, _ => (s, failResp 400 ("Blood group and units are required"))
  | some _, none => (s, failResp 400 ("Blood group and units are required"))
  | some gs, some u =>
      if gs = "" then (s, failResp 400 ("Blood group and units are required"))
      else
        match parseBloodGroup gs with
        | none => (s, failResp 400 ("Invalid blood group"))
        | some g =>
            if u < 0 then
              (s, failResp 400 ("Units must be a non-negative number"))
            else
              match lookupDoc id s.banks with
              | none => (s, failResp 404 ("Blood bank not found"))
              | some _ =>
                  let s1 :=
                    match lookupDoc id s.stocks with
                    | some _ => s
                    | none => { s with stocks := s.stocks ++ [(id, zeroStock)] }
                  let p := BloodStock.updateBloodGroupUnits s1 id g u
                  if p.2 = false then
                    (p.1, failResp 500 ("Error updating blood stock"))
                  else
                    (p.1, okResp 200 ("Blood stock updated successfully"))

/-- The admin `verifyBloodBank` endpoint from the blood-bank controller
source: requires an authenticated admin and a `bloodBankId`; performs the
guarded `verifyByAdmin` update; only AFTER a successful update does it
write the one `BloodBankAdminAction` audit record; a failed attempt
returns 400 and writes nothing. -/
def verifyBloodBank (s : Store) (adminId : Option Nat)
    (bloodBankId : Option Nat) (remarks : Option String) : Store × ApiResp :=
  match adminId with
  | none => (s, failResp 401 ("Admin authentication required"))
  | some a =>
      match bloodBankId with
      | none => (s, failResp 400 ("Blood bank ID is required"))
      | some b =>
          let p := BloodBank.verifyByAdmin s b a
          if p.2 = false then
            (p.1, failResp 400
              ("Verification failed. Blood bank must be in PENDING status."))
          else
            let s2 := BloodBankAdminAction.create p.1
              { bloodBankId := b, adminId := a, actionType := "VERIFY",
                reason := remarks, previousStatus := "PENDING",
                newStatus := "VERIFIED" }
            (s2, okResp 200 ("Blood bank verified successfully"))

end BloodBankController

namespace HospitalBloodRequestController

/-- The `fulfillRequest` endpoint from
`Backend/controllers/admin/HospitalBloodRequestController.js`:
rejects a falsy `unitsFulfilled` (absent or `0`); performs the guarded
status transition `HospitalBloodRequest.fulfillRequest` (400 on
mismatch); re-reads the request and, when it has an assigned blood bank,
debits the stock by `-unitsFulfilled` via `BloodBank.updateBloodStock`
and increments the bank's two statistics counters; a surfaced stock
error lands in the `catch` block (500), AFTER the status transition has
already been committed — the source contains no rollback. -/
def fulfillRequest (s : Store) (id : Nat) (unitsFulfilled : Option Int) :
    Store × ApiResp :=
  match unitsFulfilled with
  | none => (s, failResp 400 ("Units fulfilled is required"))
  | some u =>
      if u = 0 then (s, failResp 400 ("Units fulfilled is required"))
      else
        let p := HospitalBloodRequest.fulfillRequest s id u
        if p.2 = false then
          (p.1, failResp 400
            ("Cannot fulfill request. Must be in PROCESSING status."))
        else
          match lookupDoc id p.1.requests with
          | some r =>
              match r.bloodBankId with
              | some b =>
                  match BloodBank.updateBloodStock p.1 b r.bloodGroup (-u) with
                  | .error e => (p.1, caughtResp ("Error fulfilling request") e)
                  | .ok q =>
                      let p3 := BloodBank.incrementStatistics q.1 b
                        .totalHospitalRequestsFulfilled 1
                      let p4 := BloodBank.incrementStatistics p3.1 b
                        .totalUnitsDistributed u
                      (p4.1, okResp 200
                        ("Request fulfilled successfully and blood stock updated"))
              | none =>
                  (p.1, okResp 200
                    ("Request fulfilled successfully and blood stock updated"))
          | none =>
              (p.1, okResp 200
                ("Request fulfilled successfully and blood stock updated"))

end HospitalBloodRequestController

namespace NgoDriveController

/-- The per-group credit loop of the `completeDrive` endpoint: for every
entry of `collectedUnits` with positive units, one awaited
`BloodBank.updateBloodStock` credit; a surfaced error aborts the loop,
keeping all credits already applied (the source compensates nothing). -/
def creditCollected (s : Store) (bloodBankId : Nat) :
    List (BloodGroup × Int) → Store × Option StockErr
  | [] => (s, none)
  | (g, units) :: rest =>
      if 0 < units then
        match BloodBank.updateBloodStock s bloodBankId g units with
        | .error e => (s, some e)
        | .ok q => creditCollected q.1 bloodBankId rest
      else creditCollected s bloodBankId rest

/-- The `completeDrive` endpoint from the drive controller source:
performs the guarded status transition `BloodBankNgoDrive.completeDrive`
(400 on mismatch); re-reads the drive and, when it has a blood bank,
credits every positive collected group via `BloodBank.updateBloodStock`
and increments the bank's two statistics counters; a surfaced credit
error lands in the `catch` block (500), AFTER the drive has already been
marked COMPLETED — the source contains no rollback. -/
def completeDrive (s : Store) (id : Nat) (donors : Int) : Store × ApiResp :=
  let p := BloodBankNgoDrive.completeDrive s id donors
  if p.2 = false then
    (p.1, failResp 400 ("Cannot complete drive. Must be in ONGOING status."))
  else
    match lookupDoc id p.1.drives with
    | some d =>
        match d.bloodBankId with
        | some b =>
            match creditCollected p.1 b d.collectedUnits with
            | (s2, some e) => (s2, caughtResp ("Error completing drive") e)
            | (s2, none) =>
                let p3 := BloodBank.incrementStatistics s2 b
                  .totalNgoDrivesSupported 1
                let p4 := BloodBank.incrementStatistics p3.1 b
                  .totalDonationsReceived d.totalUnitsCollected
                (p4.1, okResp 200
                  ("Drive completed successfully and blood stock updated"))
        | none =>
            (p.1, okResp 200
              ("Drive completed successfully and blood stock updated"))
    | none =>
        (p.1, okResp 200
          ("Drive completed successfully and blood stock updated"))

end NgoDriveController

/-! ### Reachable stock mutations (for the non-negativity invariant) -/

/-- The operations of the sources that can write the `blood_stock`
collection, with raw (unvalidated) inputs: the admin stock endpoint, the
request fulfillment endpoint, the drive completion endpoint, and the
admin verification endpoint (which writes no stock but is a mutation of
the core). -/
inductive CoreMutation
  | setStock (id : Nat) (bloodGroup : Option String) (units : Option Int)
  | fulfill (id : Nat) (unitsFulfilled : Option Int)
  | completeDr (id : Nat) (donors : Int)
  | verify (adminId bloodBankId : Option Nat) (remarks : Option String)
deriving DecidableEq, Repr

/-- State effect of one mutating controller call. -/
def coreStep (s : Store) : CoreMutation → Store
  | .setStock id g u => (BloodBankController.updateBloodStock s id g u).1
  | .fulfill id u => (HospitalBloodRequestController.fulfillRequest s id u).1
  | .completeDr id donors => (NgoDriveController.completeDrive s id donors).1
  | .verify a b r => (BloodBankController.verifyBloodBank s a b r).1

/-- All eight counters of a stock document are non-negative. -/
def StockDoc.nonNeg (d : StockDoc) : Prop :=
  ∀ g : BloodGroup, 0 ≤ d.getUnits g

/-- Every stock document of the store has only non-negative counters. -/
def Store.stocksNonNeg (s : Store) : Prop :=
  ∀ p ∈ s.stocks, StockDoc.nonNeg p.2

/-! ### Concrete stores and inputs used by witnesses and counterexamples -/

/-- A verified blood bank with zeroed statistics. -/
def bankVerified : BankDoc :=
  { status := "VERIFIED", isActive := true, verifiedBy := none
    totalDonationsReceived := 0, totalUnitsDistributed := 0
    totalNgoDrivesSupported := 0, totalHospitalRequestsFulfilled := 0 }

/-- A pending (not yet verified) blood bank. -/
def bankPending : BankDoc :=
  { bankVerified with status := "PENDING", isActive := false }

/-- Stock document with `O+ = 3`, the spec scenario for bank `BB-001`. -/
def stockO3 : StockDoc := { zeroStock with oPos := 3 }

/-- Stock document with `O+ = 13`, the post-drive spec scenario. -/
def stockO13 : StockDoc := { zeroStock with oPos := 13 }

/-- A CRITICAL `O+`-for-5-units request in PROCESSING, assigned to bank 1. -/
def reqO5 : RequestDoc :=
  { status := "PROCESSING", bloodGroup := .OPos, unitsRequested := 5
    unitsFulfilled := 0, urgency := "CRITICAL", bloodBankId := some 1 }

/-- Bank 1 holds `O+ = 3`; request 5 asks for 5 units: insufficient. -/
def storeInsufficient : Store :=
  { banks := [(1, bankVerified)], stocks := [(1, stockO3)]
    requests := [(5, reqO5)], drives := [], actions := [] }

/-- Bank 1 holds `O+ = 13`; request 5 asks for 5 units: sufficient. -/
def storeSufficient : Store :=
  { storeInsufficient with stocks := [(1, stockO13)] }

/-- An ONGOING drive that collected 10 `O+` units, whose blood bank (id 9)
has no stock document. -/
def driveNoBank : DriveDoc :=
  { status := "ONGOING", bloodBankId := some 9
    collectedUnits := [(.OPos, 10)], totalUnitsCollected := 10
    totalDonorsParticipated := 0 }

/-- Store holding only drive 7 (`driveNoBank`). -/
def storeDrive : Store :=
  { banks := [], stocks := [], requests := [], drives := [(7, driveNoBank)]
    actions := [] }

/-- `storeDrive` after the complete-drive status write: drive 7 is
COMPLETED, nothing else changed. -/
def storeDrivePart : Store :=
  { storeDrive with drives := [(7, { driveNoBank with status := "COMPLETED" })] }

/-- Store holding only a VERIFIED bank with id 2. -/
def storeBankVerified : Store :=
  { banks := [(2, bankVerified)], stocks := [], requests := [], drives := []
    actions := [] }

/-- Store holding only a PENDING bank with id 2. -/
def storeBankPending : Store :=
  { storeBankVerified with banks := [(2, bankPending)] }

/-- Alert input carrying an explicit severity. -/
def alertInHigh : AlertInput :=
  { type := "CRITICAL_SHORTAGE", title := "low stock", message := "msg"
    severity := some "HIGH", relatedEntityType := none, createdBy := "system" }

/-- Alert input carrying no severity. -/
def alertInNone : AlertInput := { alertInHigh with severity := none }

/-- A concrete audit log entry already in the collection. -/
def auditE0 : AuditEntry :=
  { entityType := "BLOODBANK", action := "APPROVED", performedBy := "admin"
    performedByRole := "ADMIN", entityId := some 2, entityCode := none
    timestamp := 1, status := "SUCCESS", description := "initial" }

/-- A concrete audit payload to append. -/
def auditD0 : AuditData :=
  { entityType := "BLOOD_STOCK", action := "UPDATED", performedBy := "admin"
    performedByRole := "ADMIN", entityId := some 1, entityCode := none
    status := none, description := "stock write" }

/-! ### Helper lemmas on the collection primitives -/

theorem lookupDoc_updateAssoc_self {α : Type} (k : Nat) (f : α → α)
    (l : List (Nat × α)) :
    lookupDoc k (updateAssoc k f l) = (lookupDoc k l).map f := by
  induction l with
  | nil => rfl
  | cons hd tl ih =>
      obtain ⟨key, v⟩ := hd
      by_cases hk : key = k
      · simp [updateAssoc, lookupDoc, hk]
      · simp [updateAssoc, lookupDoc, hk, ih]

theorem updateAssoc_pred_preserve {α : Type} (P : α → Prop) (k : Nat)
    (f : α → α) (l : List (Nat × α)) (hf : ∀ v, P v → P (f v))
    (hl : ∀ p ∈ l, P p.2) : ∀ p ∈ updateAssoc k f l, P p.2 := by
  induction l with
  | nil => intro p hp; cases hp
  | cons hd tl ih =>
      obtain ⟨key, v⟩ := hd
      by_cases hk : key = k
      · intro p hp
        rw [updateAssoc, if_pos hk] at hp
        rcases List.mem_cons.mp hp with h | h
        · subst h; exact hf v (hl (key, v) (by simp))
        · exact hl p (by simp [h])
      · intro p hp
        rw [updateAssoc, if_neg hk] at hp
        rcases List.mem_cons.mp hp with h | h
        · subst h; exact hl (key, v) (by simp)
        · exact ih (fun q hq => hl q (by simp [hq])) p h

theorem getUnits_setUnits (d : StockDoc) (g g' : BloodGroup) (v : Int) :
    (d.setUnits g v).getUnits g' = if g' = g then v else d.getUnits g' := by
  cases g <;> cases g' <;> simp [StockDoc.setUnits, StockDoc.getUnits]

theorem nonNeg_setUnits {d : StockDoc} {v : Int} (hd : d.nonNeg)
    (hv : 0 ≤ v) (g : BloodGroup) : (d.setUnits g v).nonNeg := by
  intro g'
  rw [getUnits_setUnits]
  by_cases h : g' = g
  · simpa [h] using hv
  · simpa [h] using hd g'

/-- The descending comparator used by `newestFirst` is transitive and
total, so `mergeSort` returns a non-increasing list. -/
theorem newestFirst_pairwise (l : List AuditEntry) :
    (newestFirst l).Pairwise (fun a b => b.timestamp ≤ a.timestamp) := by
  have h := @List.sorted_mergeSort AuditEntry
    (fun a b : AuditEntry => decide (b.timestamp ≤ a.timestamp))
    (fun a b c h1 h2 => by
      simp only [decide_eq_true_eq] at h1 h2 ⊢; omega)
    (fun a b => by
      simp only [Bool.or_eq_true, decide_eq_true_eq]; omega)
    l
  exact h.imp (fun hab => by simpa using hab)

/-- Take-of-drop of a non-increasing list is non-increasing. -/
theorem pairwise_take_drop (l : List AuditEntry) (n m : Nat)
    (h : l.Pairwise (fun a b => b.timestamp ≤ a.timestamp)) :
    ((l.drop n).take m).Pairwise (fun a b => b.timestamp ≤ a.timestamp) :=
  List.Pairwise.sublist
    (((l.drop n).take_sublist m).trans (l.drop_sublist n)) h

/-- C5: `getStockStatus` is a pure total function of the unit count with
thresholds at 5, 10 and 20: `units < 5` gives CRITICAL, `5 ≤ units < 10`
LOW, `10 ≤ units < 20` MEDIUM, `20 ≤ units` HEALTHY; in particular the
CRITICAL boundary is exact, `units = 5` being LOW. -/
theorem getStockStatus_pure_thresholds (units : Int) :
    (units < 5 → getStockStatus units = .CRITICAL) ∧
    (5 ≤ units → units < 10 → getStockStatus units = .LOW) ∧
    (10 ≤ units → units < 20 → getStockStatus units = .MEDIUM) ∧
    (20 ≤ units → getStockStatus units = .HEALTHY) := by
  refine ⟨fun h => ?_, fun h1 h2 => ?_, fun h1 h2 => ?_, fun h => ?_⟩
  · rw [getStockStatus, if_pos h]
  · rw [getStockStatus, if_neg (by omega), if_pos h2]
  · rw [getStockStatus, if_neg (by omega), if_neg (by omega), if_pos h2]
  · rw [getStockStatus, if_neg (by omega), if_neg (by omega),
      if_neg (by omega)]

/-- Witness for C5 at the threshold inputs: 3 is CRITICAL, 5 is LOW
(not CRITICAL), 15 is MEDIUM, 25 is HEALTHY. -/
theorem getStockStatus_pure_thresholds_witness :
    getStockStatus 3 = .CRITICAL ∧ getStockStatus 5 = .LOW ∧
    getStockStatus 15 = .MEDIUM ∧ getStockStatus 25 = .HEALTHY :=
  ⟨(getStockStatus_pure_thresholds 3).1 (by decide),
   (getStockStatus_pure_thresholds 5).2.1 (by decide) (by decide),
   (getStockStatus_pure_thresholds 15).2.2.1 (by decide) (by decide),
   (getStockStatus_pure_thresholds 25).2.2.2 (by decide)⟩

/-- C10: every alert built by `Alert.create` starts unread
(`isRead = false`, `readAt = null`) and ACTIVE, with the caller-supplied
severity, defaulting to MEDIUM when none is supplied. -/
theorem alert_create_initial_state (a : AlertInput) :
    (Alert.create a).isRead = false ∧
    (Alert.create a).readAt = none ∧
    (Alert.create a).status = "ACTIVE" ∧
    (∀ sev, a.severity = some sev → sev ≠ "" →
      (Alert.create a).severity = sev) ∧
    (a.severity = none → (Alert.create a).severity = "MEDIUM") := by
  refine ⟨rfl, rfl, rfl, fun sev hs hne => ?_, fun hs => ?_⟩
  · simp [Alert.create, jsOrString, hs, hne]
  · simp [Alert.create, jsOrString, hs]

/-- Witness for C10 on concrete inputs: supplied severity HIGH is kept,
absent severity defaults to MEDIUM, and the alert starts unread. -/
theorem alert_create_initial_state_witness :
    (Alert.create alertInHigh).severity = "HIGH" ∧
    (Alert.create alertInNone).severity = "MEDIUM" ∧
    (Alert.create alertInHigh).isRead = false :=
  ⟨(alert_create_initial_state alertInHigh).2.2.2.1 ("HIGH") rfl (by decide),
   (alert_create_initial_state alertInNone).2.2.2.2 rfl,
   (alert_create_initial_state alertInHigh).1⟩

/-- C9: the `Audit` model class is append-only.  Its full method surface
is enumerated by `AuditOp`; running any sequence of methods leaves the
previously written log entries untouched — the collection after the run
is the original list extended by newly appended entries, so every
`AuditEntry`, once written, stays at its position unchanged. -/
theorem audit_append_only :
    ∀ (ops : List AuditOp) (logs : List AuditEntry),
      (∃ tail, auditRun logs ops = logs ++ tail) ∧
      (∀ (i : Nat) (e : AuditEntry), logs[i]? = some e →
        (auditRun logs ops)[i]? = some e) := by
  have main : ∀ (ops : List AuditOp) (logs : List AuditEntry),
      ∃ tail, auditRun logs ops = logs ++ tail := by
    intro ops
    induction ops with
    | nil => intro logs; exact ⟨[], by simp [auditRun]⟩
    | cons op ops ih =>
        intro logs
        obtain ⟨t, ht⟩ := ih (auditStep logs op)
        have hstep : ∃ e, auditStep logs op = logs ++ e := by
          cases op <;> simp [auditStep, Audit.create]
        obtain ⟨e, he⟩ := hstep
        refine ⟨e ++ t, ?_⟩
        show auditRun (auditStep logs op) ops = logs ++ (e ++ t)
        rw [ht, he, List.append_assoc]
  intro ops logs
  refine ⟨main ops logs, fun i e hi => ?_⟩
  obtain ⟨t, ht⟩ := main ops logs
  rw [ht]
  have hlen : i < logs.length := by
    by_contra hcon
    rw [List.getElem?_eq_none (by omega)] at hi
    exact Option.noConfusion hi
  rw [List.getElem?_append_left hlen]
  exact hi

/-- C8: every audit read query is paginated and newest-first.  For every
filter combination of `findAll` (entity type, action, actor, role,
status, date range) and for `findByEntityId`, the returned `logs` are
pairwise non-increasing in `timestamp`, contain at most `limit` entries,
and are exactly the sorted filtered collection with `(page-1)*limit`
entries skipped and `limit` taken. -/
theorem audit_queries_paginated_newest_first
    (logs : List AuditEntry) (f : AuditFilters) (entityId : Nat)
    (page limit : Nat) :
    ((Audit.findAll logs f page limit).logs.Pairwise
        (fun a b => b.timestamp ≤ a.timestamp) ∧
      (Audit.findAll logs f page limit).logs.length ≤ limit ∧
      (Audit.findAll logs f page limit).logs
        = ((newestFirst (logs.filter (auditMatches f))).drop
            ((page - 1) * limit)).take limit) ∧
    ((Audit.findByEntityId logs entityId page limit).logs.Pairwise
        (fun a b => b.timestamp ≤ a.timestamp) ∧
      (Audit.findByEntityId logs entityId page limit).logs.length ≤ limit ∧
      (Audit.findByEntityId logs entityId page limit).logs
        = ((newestFirst (logs.filter
            (fun e => e.entityId == some entityId))).drop
            ((page - 1) * limit)).take limit) := by
  refine ⟨⟨?_, ?_, rfl⟩, ⟨?_, ?_, rfl⟩⟩
  · exact pairwise_take_drop _ _ _ (newestFirst_pairwise _)
  · exact List.length_take_le _ _
  · exact pairwise_take_drop _ _ _ (newestFirst_pairwise _)
  · exact List.length_take_le _ _

/-! ### Characterization lemmas for the store operations -/

theorem updateBloodStock_ok_eq {s : Store} {b : Nat} {g : BloodGroup}
    {delta : Int} {d : StockDoc} (h : lookupDoc b s.stocks = some d)
    (hge : 0 ≤ d.getUnits g + delta) :
    BloodBank.updateBloodStock s b g delta
      = .ok
          ({ s with
              stocks := updateAssoc b
                  (fun dd => dd.setUnits g (d.getUnits g + delta)) s.stocks },
            d.getUnits g + delta) := by
  simp only [BloodBank.updateBloodStock, h]
  rw [if_neg (by omega)]

theorem updateBloodStock_insufficient_eq {s : Store} {b : Nat}
    {g : BloodGroup} {delta : Int} {d : StockDoc}
    (h : lookupDoc b s.stocks = some d) (hlt : d.getUnits g + delta < 0) :
    BloodBank.updateBloodStock s b g delta = .error .insufficientStock := by
  simp only [BloodBank.updateBloodStock, h]
  rw [if_pos hlt]

theorem updateBloodStock_notFound_eq {s : Store} {b : Nat} {g : BloodGroup}
    {delta : Int} (h : lookupDoc b s.stocks = none) :
    BloodBank.updateBloodStock s b g delta = .error .notFoundErr := by
  simp only [BloodBank.updateBloodStock, h]

theorem updateBloodStock_ok_shape {s : Store} {b : Nat} {g : BloodGroup}
    {delta : Int} {q : Store × Int}
    (hok : BloodBank.updateBloodStock s b g delta = .ok q) :
    q.1.banks = s.banks ∧ q.1.requests = s.requests ∧
    q.1.drives = s.drives ∧ q.1.actions = s.actions := by
  cases h : lookupDoc b s.stocks with
  | none => rw [updateBloodStock_notFound_eq h] at hok; cases hok
  | some d =>
      by_cases hlt : d.getUnits g + delta < 0
      · rw [updateBloodStock_insufficient_eq h hlt] at hok; cases hok
      · rw [updateBloodStock_ok_eq h (by omega)] at hok
        injection hok with h2
        subst h2
        exact ⟨rfl, rfl, rfl, rfl⟩

theorem fulfillRequest_true_eq {s : Store} {id : Nat} {u : Int}
    {r : RequestDoc} (h : lookupDoc id s.requests = some r)
    (hst : r.status = "PROCESSING") (hu : 0 < u)
    (hle : u ≤ r.unitsRequested) :
    HospitalBloodRequest.fulfillRequest s id u
      = ({ s with
            requests := updateAssoc id
                (fun rr =>
                  { rr with status := "FULFILLED", unitsFulfilled := u })
                s.requests },
          true) := by
  simp only [HospitalBloodRequest.fulfillRequest, h]
  rw [if_pos ⟨hst, hu, hle⟩]

theorem fulfillRequest_notProcessing_eq {s : Store} {id : Nat} {u : Int}
    {r : RequestDoc} (h : lookupDoc id s.requests = some r)
    (hst : r.status ≠ "PROCESSING") :
    HospitalBloodRequest.fulfillRequest s id u = (s, false) := by
  simp only [HospitalBloodRequest.fulfillRequest, h]
  rw [if_neg (by tauto)]

theorem fulfillRequest_parts (s : Store) (id : Nat) (u : Int) :
    (HospitalBloodRequest.fulfillRequest s id u).1.banks = s.banks ∧
    (HospitalBloodRequest.fulfillRequest s id u).1.stocks = s.stocks ∧
    (HospitalBloodRequest.fulfillRequest s id u).1.drives = s.drives ∧
    (HospitalBloodRequest.fulfillRequest s id u).1.actions = s.actions := by
  cases h : lookupDoc id s.requests with
  | none => simp [HospitalBloodRequest.fulfillRequest, h]
  | some r =>
      by_cases hc : r.status = "PROCESSING" ∧ 0 < u ∧ u ≤ r.unitsRequested
      · simp [HospitalBloodRequest.fulfillRequest, h, if_pos hc]
      · simp [HospitalBloodRequest.fulfillRequest, h, if_neg hc]

theorem completeDriveCas_true_eq {s : Store} {id : Nat} {donors : Int}
    {d : DriveDoc} (h : lookupDoc id s.drives = some d)
    (hst : d.status = "ONGOING") :
    BloodBankNgoDrive.completeDrive s id donors
      = ({ s with
            drives := updateAssoc id
                (fun dd =>
                  { dd with status := "COMPLETED",
                            totalDonorsParticipated := donors })
                s.drives },
          true) := by
  simp only [BloodBankNgoDrive.completeDrive, h]
  rw [if_pos hst]

theorem completeDriveCas_parts (s : Store) (id : Nat) (donors : Int) :
    (BloodBankNgoDrive.completeDrive s id donors).1.banks = s.banks ∧
    (BloodBankNgoDrive.completeDrive s id donors).1.stocks = s.stocks ∧
    (BloodBankNgoDrive.completeDrive s id donors).1.requests = s.requests ∧
    (BloodBankNgoDrive.completeDrive s id donors).1.actions = s.actions := by
  cases h : lookupDoc id s.drives with
  | none => simp [BloodBankNgoDrive.completeDrive, h]
  | some d =>
      by_cases hc : d.status = "ONGOING"
      · simp [BloodBankNgoDrive.completeDrive, h, if_pos hc]
      · simp [BloodBankNgoDrive.completeDrive, h, if_neg hc]

theorem incrementStatistics_parts (s : Store) (id : Nat) (f : StatField)
    (v : Int) :
    (BloodBank.incrementStatistics s id f v).1.stocks = s.stocks ∧
    (BloodBank.incrementStatistics s id f v).1.requests = s.requests ∧
    (BloodBank.incrementStatistics s id f v).1.drives = s.drives ∧
    (BloodBank.incrementStatistics s id f v).1.actions = s.actions := by
  cases h : lookupDoc id s.banks with
  | none => simp [BloodBank.incrementStatistics, h]
  | some b => simp [BloodBank.incrementStatistics, h]

theorem verifyByAdmin_parts (s : Store) (id adminId : Nat) :
    (BloodBank.verifyByAdmin s id adminId).1.stocks = s.stocks ∧
    (BloodBank.verifyByAdmin s id adminId).1.requests = s.requests ∧
    (BloodBank.verifyByAdmin s id adminId).1.drives = s.drives ∧
    (BloodBank.verifyByAdmin s id adminId).1.actions = s.actions := by
  cases h : lookupDoc id s.banks with
  | none => simp [BloodBank.verifyByAdmin, h]
  | some b =>
      by_cases hc : b.status = "PENDING"
      · simp [BloodBank.verifyByAdmin, h, if_pos hc]
      · simp [BloodBank.verifyByAdmin, h, if_neg hc]

theorem creditCollected_parts (b : Nat) :
    ∀ (l : List (BloodGroup × Int)) (s : Store),
    (NgoDriveController.creditCollected s b l).1.banks = s.banks ∧
    (NgoDriveController.creditCollected s b l).1.requests = s.requests ∧
    (NgoDriveController.creditCollected s b l).1.drives = s.drives ∧
    (NgoDriveController.creditCollected s b l).1.actions = s.actions := by
  intro l
  induction l with
  | nil => intro s; exact ⟨rfl, rfl, rfl, rfl⟩
  | cons hd tl ih =>
      intro s
      obtain ⟨g, u⟩ := hd
      by_cases hu : 0 < u
      · cases hok : BloodBank.updateBloodStock s b g u with
        | error e =>
            simp [NgoDriveController.creditCollected, if_pos hu, hok]
        | ok q =>
            obtain ⟨h1, h2, h3, h4⟩ := updateBloodStock_ok_shape hok
            obtain ⟨g1, g2, g3, g4⟩ := ih q.1
            simp only [NgoDriveController.creditCollected, if_pos hu, hok]
            exact ⟨g1.trans h1, g2.trans h2, g3.trans h3, g4.trans h4⟩
      · simp only [NgoDriveController.creditCollected, if_neg hu]
        exact ih s

/-! ### Non-negativity preservation lemmas -/

theorem zeroStock_nonNeg : zeroStock.nonNeg := by
  intro g; cases g <;> decide

theorem stocksNonNeg_of_stocks_eq {s t : Store} (h : t.stocks = s.stocks)
    (hs : s.stocksNonNeg) : t.stocksNonNeg := by
  intro p hp
  exact hs p (h ▸ hp)

theorem updateBloodStock_ok_nonNeg {s : Store} {b : Nat} {g : BloodGroup}
    {delta : Int} {q : Store × Int} (hs : s.stocksNonNeg)
    (hok : BloodBank.updateBloodStock s b g delta = .ok q) :
    q.1.stocksNonNeg := by
  cases h : lookupDoc b s.stocks with
  | none => rw [updateBloodStock_notFound_eq h] at hok; cases hok
  | some d =>
      by_cases hlt : d.getUnits g + delta < 0
      · rw [updateBloodStock_insufficient_eq h hlt] at hok; cases hok
      · rw [updateBloodStock_ok_eq h (by omega)] at hok
        injection hok with h2
        subst h2
        intro p hp
        exact updateAssoc_pred_preserve StockDoc.nonNeg b _ s.stocks
          (fun v hv => nonNeg_setUnits hv (by omega) g) hs p hp

theorem creditCollected_nonNeg (b : Nat) :
    ∀ (l : List (BloodGroup × Int)) (s : Store), s.stocksNonNeg →
      ((NgoDriveController.creditCollected s b l).1).stocksNonNeg := by
  intro l
  induction l with
  | nil => intro s hs; exact hs
  | cons hd tl ih =>
      intro s hs
      obtain ⟨g, u⟩ := hd
      by_cases hu : 0 < u
      · cases hok : BloodBank.updateBloodStock s b g u with
        | error e =>
            simp only [NgoDriveController.creditCollected, if_pos hu, hok]
            exact hs
        | ok q =>
            simp only [NgoDriveController.creditCollected, if_pos hu, hok]
            exact ih q.1 (updateBloodStock_ok_nonNeg hs hok)
      · simp only [NgoDriveController.creditCollected, if_neg hu]
        exact ih s hs

theorem updateBloodGroupUnits_nonNeg {s : Store} {id : Nat} {g : BloodGroup}
    {u : Int} (hs : s.stocksNonNeg) (hu : 0 ≤ u) :
    ((BloodStock.updateBloodGroupUnits s id g u).1).stocksNonNeg := by
  cases h : lookupDoc id s.stocks with
  | none =>
      simp only [BloodStock.updateBloodGroupUnits, h]
      exact hs
  | some d =>
      simp only [BloodStock.updateBloodGroupUnits, h]
      intro p hp
      exact updateAssoc_pred_preserve StockDoc.nonNeg id _ s.stocks
        (fun v hv => nonNeg_setUnits hv hu g) hs p hp

theorem setStockController_nonNeg (s : Store) (id : Nat)
    (gOpt : Option String) (uOpt : Option Int) (hs : s.stocksNonNeg) :
    ((BloodBankController.updateBloodStock s id gOpt uOpt).1).stocksNonNeg := by
  cases gOpt with
  | none => exact hs
  | some gs =>
      cases uOpt with
      | none => exact hs
      | some u =>
          by_cases hgs : gs = ""
          · simp only [BloodBankController.updateBloodStock, if_pos hgs]
            exact hs
          · simp only [BloodBankController.updateBloodStock, if_neg hgs]
            cases hg : parseBloodGroup gs with
            | none => exact hs
            | some g =>
                by_cases hu : u < 0
                · simp only [if_pos hu]
                  exact hs
                · simp only [if_neg hu]
                  cases hb : lookupDoc id s.banks with
                  | none => exact hs
                  | some bank =>
                      have hs1 : ∀ s1 : Store, s1.stocksNonNeg →
                          ((if (BloodStock.updateBloodGroupUnits s1 id g u).2
                              = false then
                              ((BloodStock.updateBloodGroupUnits s1 id g u).1,
                                failResp 500 ("Error updating blood stock"))
                            else
                              ((BloodStock.updateBloodGroupUnits s1 id g u).1,
                                okResp 200
                                  ("Blood stock updated successfully"))).1
                            ).stocksNonNeg := by
                        intro s1 hns1
                        by_cases hcase :
                            (BloodStock.updateBloodGroupUnits s1 id g u).2
                              = false
                        · simp only [if_pos hcase]
                          exact updateBloodGroupUnits_nonNeg hns1 (by omega)
                        · simp only [if_neg hcase]
                          exact updateBloodGroupUnits_nonNeg hns1 (by omega)
                      cases hst : lookupDoc id s.stocks with
                      | some d0 =>
                          simp only [hst]
                          exact hs1 s hs
                      | none =>
                          simp only [hst]
                          refine hs1 _ ?_
                          intro p hp
                          rcases List.mem_append.mp hp with h1 | h1
                          · exact hs p h1
                          · have : p = (id, zeroStock) := by simpa using h1
                            rw [this]
                            exact zeroStock_nonNeg

theorem fulfillController_nonNeg (s : Store) (id : Nat) (uOpt : Option Int)
    (hs : s.stocksNonNeg) :
    ((HospitalBloodRequestController.fulfillRequest s id uOpt).1).stocksNonNeg := by
  cases uOpt with
  | none => exact hs
  | some u =>
      by_cases hu0 : u = 0
      · simp only [HospitalBloodRequestController.fulfillRequest, if_pos hu0]
        exact hs
      · simp only [HospitalBloodRequestController.fulfillRequest, if_neg hu0]
        have hpn : (HospitalBloodRequest.fulfillRequest s id u).1.stocksNonNeg :=
          stocksNonNeg_of_stocks_eq (fulfillRequest_parts s id u).2.1 hs
        by_cases h2 : (HospitalBloodRequest.fulfillRequest s id u).2 = false
        · simp only [if_pos h2]
          exact hpn
        · simp only [if_neg h2]
          cases hr : lookupDoc id
              (HospitalBloodRequest.fulfillRequest s id u).1.requests with
          | none => simp only [hr]; exact hpn
          | some r =>
              simp only [hr]
              cases hb : r.bloodBankId with
              | none => simp only [hb]; exact hpn
              | some b =>
                  simp only [hb]
                  cases hok : BloodBank.updateBloodStock
                      (HospitalBloodRequest.fulfillRequest s id u).1 b
                      r.bloodGroup (-u) with
                  | error e => simp only [hok]; exact hpn
                  | ok q =>
                      simp only [hok]
                      have hq : q.1.stocksNonNeg :=
                        updateBloodStock_ok_nonNeg hpn hok
                      have h3 := stocksNonNeg_of_stocks_eq
                        (incrementStatistics_parts q.1 b
                          .totalHospitalRequestsFulfilled 1).1 hq
                      exact stocksNonNeg_of_stocks_eq
                        (incrementStatistics_parts _ b
                          .totalUnitsDistributed u).1 h3

theorem completeDriveController_nonNeg (s : Store) (id : Nat) (donors : Int)
    (hs : s.stocksNonNeg) :
    ((NgoDriveController.completeDrive s id donors).1).stocksNonNeg := by
  simp only [NgoDriveController.completeDrive]
  have hpn : (BloodBankNgoDrive.completeDrive s id donors).1.stocksNonNeg :=
    stocksNonNeg_of_stocks_eq (completeDriveCas_parts s id donors).2.1 hs
  by_cases h2 : (BloodBankNgoDrive.completeDrive s id donors).2 = false
  · simp only [if_pos h2]
    exact hpn
  · simp only [if_neg h2]
    cases hd : lookupDoc id
        (BloodBankNgoDrive.completeDrive s id donors).1.drives with
    | none => simp only [hd]; exact hpn
    | some d =>
        simp only [hd]
        cases hb : d.bloodBankId with
        | none => simp only [hb]; exact hpn
        | some b =>
            simp only [hb]
            cases hcc : NgoDriveController.creditCollected
                (BloodBankNgoDrive.completeDrive s id donors).1 b
                d.collectedUnits with
            | mk s2 errOpt =>
                have hs2 : s2.stocksNonNeg := by
                  have := creditCollected_nonNeg b d.collectedUnits
                    (BloodBankNgoDrive.completeDrive s id donors).1 hpn
                  rw [hcc] at this
                  exact this
                cases errOpt with
                | some e => simp only [hcc]; exact hs2
                | none =>
                    simp only [hcc]
                    have h3 := stocksNonNeg_of_stocks_eq
                      (incrementStatistics_parts s2 b
                        .totalNgoDrivesSupported 1).1 hs2
                    exact stocksNonNeg_of_stocks_eq
                      (incrementStatistics_parts _ b
                        .totalDonationsReceived d.totalUnitsCollected).1 h3

theorem verifyController_nonNeg (s : Store) (aOpt bOpt : Option Nat)
    (remarks : Option String) (hs : s.stocksNonNeg) :
    ((BloodBankController.verifyBloodBank s aOpt bOpt remarks).1).stocksNonNeg := by
  cases aOpt with
  | none => exact hs
  | some a =>
      cases bOpt with
      | none => exact hs
      | some b =>
          simp only [BloodBankController.verifyBloodBank]
          have hpn : (BloodBank.verifyByAdmin s b a).1.stocksNonNeg :=
            stocksNonNeg_of_stocks_eq (verifyByAdmin_parts s b a).1 hs
          by_cases h2 : (BloodBank.verifyByAdmin s b a).2 = false
          · simp only [if_pos h2]
            exact hpn
          · simp only [if_neg h2]
            exact stocksNonNeg_of_stocks_eq rfl hpn

/-- C6: stock counters can never go negative.  First conjunct: the admin
stock endpoint rejects any negative units value with the validation
response and performs no write (the returned store is the input store).
Second conjunct: every reachable mutating controller call preserves
non-negativity of every bank's every blood-group counter. -/
theorem stock_never_negative :
    (∀ (s : Store) (id : Nat) (gs : String) (g : BloodGroup) (u : Int),
      parseBloodGroup gs = some g → u < 0 →
      BloodBankController.updateBloodStock s id (some gs) (some u)
        = (s, failResp 400 ("Units must be a non-negative number"))) ∧
    (∀ (s : Store) (m : CoreMutation), s.stocksNonNeg →
      (coreStep s m).stocksNonNeg) := by
  constructor
  · intro s id gs g u hg hu
    have hgs : ¬ gs = "" := by
      intro h
      rw [h] at hg
      simp [parseBloodGroup] at hg
    simp only [BloodBankController.updateBloodStock, if_neg hgs, hg,
      if_pos hu]
  · intro s m hs
    cases m with
    | setStock id gOpt uOpt => exact setStockController_nonNeg s id gOpt uOpt hs
    | fulfill id uOpt => exact fulfillController_nonNeg s id uOpt hs
    | completeDr id donors => exact completeDriveController_nonNeg s id donors hs
    | verify aOpt bOpt remarks => exact verifyController_nonNeg s aOpt bOpt remarks hs

/-- Witness for C6: a negative units value (−1) on a concrete store is
rejected with no write, and a concrete fulfill mutation preserves the
non-negativity of `storeSufficient`. -/
theorem stock_never_negative_witness :
    (BloodBankController.updateBloodStock storeSufficient 1 (some ("O+"))
        (some (-1))
      = (storeSufficient, failResp 400 ("Units must be a non-negative number"))) ∧
    (coreStep storeSufficient (.fulfill 5 (some 5))).stocksNonNeg :=
  ⟨stock_never_negative.1 storeSufficient 1 ("O+") .OPos (-1) (by decide)
      (by decide),
   stock_never_negative.2 storeSufficient (.fulfill 5 (some 5))
      (by
        intro p hp
        have hp2 : p = (1, stockO13) := by
          simpa [storeSufficient, storeInsufficient] using hp
        rw [hp2]
        intro g
        cases g <;> decide)⟩

/-- C7: `BloodBank.updateBloodStock` (the Stock Ledger adjust) applies a
signed delta relatively to the current counter: a negative delta on
sufficient stock succeeds and decrements the counter by its magnitude,
and every positive delta (on a non-negative counter) increments the
counter by the delta. -/
theorem stock_adjust_signed_delta (s : Store) (b : Nat) (g : BloodGroup)
    (delta : Int) (d : StockDoc) (h : lookupDoc b s.stocks = some d)
    (hnn : 0 ≤ d.getUnits g) :
    (0 < delta →
      ∃ s', BloodBank.updateBloodStock s b g delta
          = .ok (s', d.getUnits g + delta) ∧
        ∃ d', lookupDoc b s'.stocks = some d' ∧
          d'.getUnits g = d.getUnits g + delta) ∧
    (delta < 0 → -delta ≤ d.getUnits g →
      ∃ s', BloodBank.updateBloodStock s b g delta
          = .ok (s', d.getUnits g + delta) ∧
        ∃ d', lookupDoc b s'.stocks = some d' ∧
          d'.getUnits g = d.getUnits g + delta) := by
  constructor
  · intro hp
    refine ⟨_, updateBloodStock_ok_eq h (by omega), ?_⟩
    refine ⟨d.setUnits g (d.getUnits g + delta), ?_, ?_⟩
    · rw [lookupDoc_updateAssoc_self, h]
      rfl
    · rw [getUnits_setUnits]
      simp
  · intro hn hsuff
    refine ⟨_, updateBloodStock_ok_eq h (by omega), ?_⟩
    refine ⟨d.setUnits g (d.getUnits g + delta), ?_, ?_⟩
    · rw [lookupDoc_updateAssoc_self, h]
      rfl
    · rw [getUnits_setUnits]
      simp

/-- Witness for C7 on `storeSufficient` (bank 1, `O+ = 13`): crediting
`+10` yields 23, debiting `−5` yields 8. -/
theorem stock_adjust_signed_delta_witness :
    (∃ s', BloodBank.updateBloodStock storeSufficient 1 .OPos 10
        = .ok (s', 23) ∧
      ∃ d', lookupDoc 1 s'.stocks = some d' ∧ d'.getUnits .OPos = 23) ∧
    (∃ s', BloodBank.updateBloodStock storeSufficient 1 .OPos (-5)
        = .ok (s', 8) ∧
      ∃ d', lookupDoc 1 s'.stocks = some d' ∧ d'.getUnits .OPos = 8) :=
  ⟨(stock_adjust_signed_delta storeSufficient 1 .OPos 10 stockO13
      (by decide) (by decide)).1 (by decide),
   (stock_adjust_signed_delta storeSufficient 1 .OPos (-5) stockO13
      (by decide) (by decide)).2 (by decide) (by decide)⟩

/-- Counterexample to C1 (spec scenario: bank `O+ = 3`, request for 5
units in PROCESSING, `fulfill(5)`): the call does fail with
`InsufficientStockError` and the stock stays at 3, but the request's
status does NOT remain PROCESSING — the controller commits the
FULFILLED transition before attempting the stock debit and never rolls
it back. -/
theorem fulfill_insufficient_stock_counterexample :
    (HospitalBloodRequestController.fulfillRequest storeInsufficient 5
        (some 5)).2
      = caughtResp ("Error fulfilling request") .insufficientStock ∧
    (HospitalBloodRequestController.fulfillRequest storeInsufficient 5
        (some 5)).1.stocks
      = [(1, stockO3)] ∧
    lookupDoc 5 (HospitalBloodRequestController.fulfillRequest
        storeInsufficient 5 (some 5)).1.requests
      = some { reqO5 with status := "FULFILLED", unitsFulfilled := 5 } ∧
    ("FULFILLED" : String) ≠ "PROCESSING" := by
  refine ⟨?_, ?_, ?_, by decide⟩ <;> decide

/-- C1 amended: for every request in PROCESSING whose assigned bank holds
fewer units of the requested group than `unitsFulfilled`, the fulfill
endpoint fails with `InsufficientStockError` and the bank's stock is
unchanged — but the request's status is FULFILLED, not PROCESSING,
because the status transition is committed before the stock debit and
is not rolled back on failure. -/
theorem fulfill_insufficient_stock_amended (s : Store) (rid b : Nat)
    (r : RequestDoc) (d : StockDoc) (u : Int)
    (hreq : lookupDoc rid s.requests = some r)
    (hst : r.status = "PROCESSING")
    (hb : r.bloodBankId = some b)
    (hstock : lookupDoc b s.stocks = some d)
    (hu : 0 < u) (hle : u ≤ r.unitsRequested)
    (hinsuf : d.getUnits r.bloodGroup < u) :
    (HospitalBloodRequestController.fulfillRequest s rid (some u)).2
      = caughtResp ("Error fulfilling request") .insufficientStock ∧
    (HospitalBloodRequestController.fulfillRequest s rid (some u)).1.stocks
      = s.stocks ∧
    ∃ r', lookupDoc rid
        (HospitalBloodRequestController.fulfillRequest s rid
          (some u)).1.requests = some r' ∧
      r'.status = "FULFILLED" := by
  have hu0 : ¬ u = 0 := by omega
  have hcas := fulfillRequest_true_eq hreq hst hu hle
  have hlook : lookupDoc rid (updateAssoc rid
      (fun rr => { rr with status := "FULFILLED", unitsFulfilled := u })
      s.requests)
      = some { r with status := "FULFILLED", unitsFulfilled := u } := by
    rw [lookupDoc_updateAssoc_self, hreq]
    rfl
  have herr : BloodBank.updateBloodStock
      ({ s with
          requests := updateAssoc rid
              (fun rr =>
                { rr with status := "FULFILLED", unitsFulfilled := u })
              s.requests })
      b r.bloodGroup (-u) = .error .insufficientStock :=
    updateBloodStock_insufficient_eq (d := d) hstock (by omega)
  have hmain : HospitalBloodRequestController.fulfillRequest s rid (some u)
      = ({ s with
            requests := updateAssoc rid
                (fun rr =>
                  { rr with status := "FULFILLED", unitsFulfilled := u })
                s.requests },
          caughtResp ("Error fulfilling request") .insufficientStock) := by
    simp only [HospitalBloodRequestController.fulfillRequest, if_neg hu0,
      hcas, hlook, hb, herr]
    rfl
  rw [hmain]
  exact ⟨rfl, rfl, ⟨{ r with status := "FULFILLED", unitsFulfilled := u },
    hlook, rfl⟩⟩

/-- Witness for C1 amended on the concrete spec scenario store. -/
theorem fulfill_insufficient_stock_amended_witness :
    (HospitalBloodRequestController.fulfillRequest storeInsufficient 5
        (some 5)).2
      = caughtResp ("Error fulfilling request") .insufficientStock ∧
    (HospitalBloodRequestController.fulfillRequest storeInsufficient 5
        (some 5)).1.stocks
      = storeInsufficient.stocks ∧
    ∃ r', lookupDoc 5 (HospitalBloodRequestController.fulfillRequest
        storeInsufficient 5 (some 5)).1.requests = some r' ∧
      r'.status = "FULFILLED" :=
  fulfill_insufficient_stock_amended storeInsufficient 5 1 reqO5 stockO3 5
    (by decide) (by decide) (by decide) (by decide) (by decide) (by decide)
    (by decide)

theorem incrementStatistics_stocks (s : Store) (id : Nat) (f : StatField)
    (v : Int) :
    (BloodBank.incrementStatistics s id f v).1.stocks = s.stocks :=
  (incrementStatistics_parts s id f v).1

theorem incrementStatistics_requests (s : Store) (id : Nat) (f : StatField)
    (v : Int) :
    (BloodBank.incrementStatistics s id f v).1.requests = s.requests :=
  (incrementStatistics_parts s id f v).2.1

theorem incrementStatistics_actions (s : Store) (id : Nat) (f : StatField)
    (v : Int) :
    (BloodBank.incrementStatistics s id f v).1.actions = s.actions :=
  (incrementStatistics_parts s id f v).2.2.2

/-- C3: on sufficient stock, fulfilling the same request twice succeeds
exactly once.  The first call (in PROCESSING) returns 200 and moves the
request to FULFILLED; the second call fails with the precondition
response (the current status no longer matches) and changes nothing; the
bank's counter for the requested group is debited exactly once. -/
theorem fulfill_twice_debits_once (s : Store) (rid b : Nat)
    (r : RequestDoc) (d : StockDoc) (u : Int)
    (hreq : lookupDoc rid s.requests = some r)
    (hst : r.status = "PROCESSING")
    (hb : r.bloodBankId = some b)
    (hstock : lookupDoc b s.stocks = some d)
    (hu : 0 < u) (hle : u ≤ r.unitsRequested)
    (hsuff : u ≤ d.getUnits r.bloodGroup) :
    (HospitalBloodRequestController.fulfillRequest s rid (some u)).2
      = okResp 200 ("Request fulfilled successfully and blood stock updated") ∧
    (∃ r1, lookupDoc rid (HospitalBloodRequestController.fulfillRequest s
        rid (some u)).1.requests = some r1 ∧ r1.status = "FULFILLED") ∧
    HospitalBloodRequestController.fulfillRequest
        (HospitalBloodRequestController.fulfillRequest s rid (some u)).1
        rid (some u)
      = ((HospitalBloodRequestController.fulfillRequest s rid (some u)).1,
         failResp 400 ("Cannot fulfill request. Must be in PROCESSING status.")) ∧
    (∃ d1, lookupDoc b (HospitalBloodRequestController.fulfillRequest s rid
        (some u)).1.stocks = some d1 ∧
      d1.getUnits r.bloodGroup = d.getUnits r.bloodGroup - u) := by
  have hu0 : ¬ u = 0 := by omega
  have hcas := fulfillRequest_true_eq hreq hst hu hle
  have hlook : lookupDoc rid (updateAssoc rid
      (fun rr => { rr with status := "FULFILLED", unitsFulfilled := u })
      s.requests)
      = some { r with status := "FULFILLED", unitsFulfilled := u } := by
    rw [lookupDoc_updateAssoc_self, hreq]
    rfl
  have hok := @updateBloodStock_ok_eq
    ({ s with
        requests := updateAssoc rid
            (fun rr =>
              { rr with status := "FULFILLED", unitsFulfilled := u })
            s.requests })
    b r.bloodGroup (-u) d hstock (by omega)
  have h1 : (HospitalBloodRequestController.fulfillRequest s rid (some u)).2
      = okResp 200 ("Request fulfilled successfully and blood stock updated") := by
    simp only [HospitalBloodRequestController.fulfillRequest, if_neg hu0,
      hcas, hlook, hb, hok]
    rfl
  have h2 : lookupDoc rid (HospitalBloodRequestController.fulfillRequest s
      rid (some u)).1.requests
      = some { r with status := "FULFILLED", unitsFulfilled := u } := by
    simp only [HospitalBloodRequestController.fulfillRequest, if_neg hu0,
      hcas, hlook, hb, hok, Bool.true_eq_false, if_false,
      incrementStatistics_requests]
  have h3 : lookupDoc b (HospitalBloodRequestController.fulfillRequest s
      rid (some u)).1.stocks
      = some (d.setUnits r.bloodGroup (d.getUnits r.bloodGroup + -u)) := by
    simp only [HospitalBloodRequestController.fulfillRequest, if_neg hu0,
      hcas, hlook, hb, hok, Bool.true_eq_false, if_false,
      incrementStatistics_stocks]
    rw [lookupDoc_updateAssoc_self, hstock]
    rfl
  have hne : ({ r with status := "FULFILLED", unitsFulfilled := u } :
      RequestDoc).status ≠ "PROCESSING" := by simp
  have hcas2 := @fulfillRequest_notProcessing_eq
    ((HospitalBloodRequestController.fulfillRequest s rid (some u)).1) rid u
    _ h2 hne
  have h4gen : ∀ P : Store, HospitalBloodRequest.fulfillRequest P rid u
      = (P, false) →
      HospitalBloodRequestController.fulfillRequest P rid (some u)
        = (P, failResp 400
            ("Cannot fulfill request. Must be in PROCESSING status.")) := by
    intro P hP
    simp only [HospitalBloodRequestController.fulfillRequest, if_neg hu0, hP,
      eq_self_iff_true, if_true]
  refine ⟨h1, ⟨_, h2, rfl⟩, h4gen _ hcas2, ⟨_, h3, ?_⟩⟩
  rw [getUnits_setUnits]
  simp only [eq_self_iff_true, if_true]
  omega

/-- Witness for C3 on `storeSufficient` (bank 1, `O+ = 13`, request for 5
units in PROCESSING): first fulfill succeeds, second fails with the
precondition response, counter debited once (13 − 5 = 8). -/
theorem fulfill_twice_debits_once_witness :
    (HospitalBloodRequestController.fulfillRequest storeSufficient 5
        (some 5)).2
      = okResp 200 ("Request fulfilled successfully and blood stock updated") ∧
    (∃ r1, lookupDoc 5 (HospitalBloodRequestController.fulfillRequest
        storeSufficient 5 (some 5)).1.requests = some r1 ∧
      r1.status = "FULFILLED") ∧
    HospitalBloodRequestController.fulfillRequest
        (HospitalBloodRequestController.fulfillRequest storeSufficient 5
          (some 5)).1 5 (some 5)
      = ((HospitalBloodRequestController.fulfillRequest storeSufficient 5
          (some 5)).1,
         failResp 400 ("Cannot fulfill request. Must be in PROCESSING status.")) ∧
    (∃ d1, lookupDoc 1 (HospitalBloodRequestController.fulfillRequest
        storeSufficient 5 (some 5)).1.stocks = some d1 ∧
      d1.getUnits reqO5.bloodGroup
        = stockO13.getUnits reqO5.bloodGroup - 5) :=
  fulfill_twice_debits_once storeSufficient 5 1 reqO5 stockO13 5
    (by decide) (by decide) (by decide) (by decide) (by decide) (by decide)
    (by decide)

/-- Counterexample to C2: drive 7 is ONGOING with 10 collected `O+` units
and a blood bank (id 9) with no stock document; `completeDrive` surfaces
the failed credit (500), leaves the ledger untouched here, but the drive
does NOT remain ONGOING — it was marked COMPLETED before the credits and
is not rolled back. -/
theorem complete_drive_rollback_counterexample :
    (NgoDriveController.completeDrive storeDrive 7 0).2
      = caughtResp ("Error completing drive") .notFoundErr ∧
    (NgoDriveController.completeDrive storeDrive 7 0).1.stocks = [] ∧
    lookupDoc 7 (NgoDriveController.completeDrive storeDrive 7 0).1.drives
      = some { driveNoBank with status := "COMPLETED" } ∧
    ("COMPLETED" : String) ≠ "ONGOING" := by
  refine ⟨?_, ?_, ?_, by decide⟩ <;> decide

/-- C2 amended: when any per-group credit fails during `completeDrive` on
an ONGOING drive, the endpoint returns the surfaced error and the exact
partial-credit state — credits applied before the failure are NOT
reversed (no compensation exists in the source) — and the drive is
COMPLETED, not ONGOING, because the status transition precedes the
credits. -/
theorem complete_drive_failure_amended (s : Store) (did b : Nat)
    (d : DriveDoc) (donors : Int) (sPart : Store) (e : StockErr)
    (hd : lookupDoc did s.drives = some d)
    (hst : d.status = "ONGOING")
    (hb : d.bloodBankId = some b)
    (hcred : NgoDriveController.creditCollected
        ({ s with
            drives := updateAssoc did
                (fun dd =>
                  { dd with status := "COMPLETED",
                            totalDonorsParticipated := donors })
                s.drives })
        b d.collectedUnits = (sPart, some e)) :
    NgoDriveController.completeDrive s did donors
      = (sPart, caughtResp ("Error completing drive") e) ∧
    ∃ d', lookupDoc did sPart.drives = some d' ∧
      d'.status = "COMPLETED" := by
  have hcas := @completeDriveCas_true_eq s did donors d hd hst
  have hlook : lookupDoc did (updateAssoc did
      (fun dd =>
        { dd with status := "COMPLETED", totalDonorsParticipated := donors })
      s.drives)
      = some { d with status := "COMPLETED",
                      totalDonorsParticipated := donors } := by
    rw [lookupDoc_updateAssoc_self, hd]
    rfl
  constructor
  · simp only [NgoDriveController.completeDrive, hcas, hlook, hb,
      Bool.true_eq_false, if_false, hcred]
  · have h1 := (creditCollected_parts b d.collectedUnits
      ({ s with
          drives := updateAssoc did
              (fun dd =>
                { dd with status := "COMPLETED",
                          totalDonorsParticipated := donors })
              s.drives })).2.2.1
    rw [hcred] at h1
    have hdr : sPart.drives = updateAssoc did
        (fun dd =>
          { dd with status := "COMPLETED",
                    totalDonorsParticipated := donors })
        s.drives := h1
    refine ⟨{ d with
          status := "COMPLETED",
          totalDonorsParticipated := donors },
      ?_, rfl⟩
    rw [hdr]
    exact hlook

/-- Witness for C2 amended on the concrete store: the failing credit
(unknown bank 9) yields the 500 response, the partial state
`storeDrivePart`, and a COMPLETED drive. -/
theorem complete_drive_failure_amended_witness :
    NgoDriveController.completeDrive storeDrive 7 0
      = (storeDrivePart, caughtResp ("Error completing drive") .notFoundErr) ∧
    ∃ d', lookupDoc 7 storeDrivePart.drives = some d' ∧
      d'.status = "COMPLETED" :=
  complete_drive_failure_amended storeDrive 7 9 driveNoBank 0 storeDrivePart
    .notFoundErr (by decide) (by decide) (by decide) (by decide)

theorem verifyByAdmin_actions (s : Store) (id a : Nat) :
    (BloodBank.verifyByAdmin s id a).1.actions = s.actions :=
  (verifyByAdmin_parts s id a).2.2.2

/-- Counterexample to C4: an attempted admin mutation that fails — here
`verifyBloodBank` on a bank that is already VERIFIED — appends NO audit
record at all (the action collection stays empty), not "exactly one
AuditEntry with status FAILURE". -/
theorem audit_entry_per_attempt_counterexample :
    (BloodBankController.verifyBloodBank storeBankVerified (some 1) (some 2)
        none).2
      = failResp 400
          ("Verification failed. Blood bank must be in PENDING status.") ∧
    (BloodBankController.verifyBloodBank storeBankVerified (some 1) (some 2)
        none).1.actions = [] := by
  refine ⟨?_, ?_⟩ <;> decide

/-- C4 amended: for the blood-bank admin action whose audit write is in
the sources, records are written only for SUCCESSFUL transitions:
`verifyBloodBank` appends exactly one admin-action record when the
guarded update succeeds (200) and none when the attempt fails (non-200)
— a failed attempt produces no FAILURE entry.  (The audit behaviour of
the fulfill path is not stated: it runs through the src-absent
`BloodBank.updateBloodStock`, whose spec contract includes an on-success
audit write that is outside this embedding.) -/
theorem audit_success_only_amended (s : Store) (a b : Nat)
    (remarks : Option String) :
    ((BloodBankController.verifyBloodBank s (some a) (some b)
        remarks).2.status = 200 →
      (BloodBankController.verifyBloodBank s (some a) (some b)
        remarks).1.actions.length = s.actions.length + 1) ∧
    ((BloodBankController.verifyBloodBank s (some a) (some b)
        remarks).2.status ≠ 200 →
      (BloodBankController.verifyBloodBank s (some a) (some b)
        remarks).1.actions = s.actions) := by
  by_cases h2 : (BloodBank.verifyByAdmin s b a).2 = false
  · have hmain : BloodBankController.verifyBloodBank s (some a) (some b)
        remarks
        = ((BloodBank.verifyByAdmin s b a).1,
           failResp 400
             ("Verification failed. Blood bank must be in PENDING status.")) := by
      simp only [BloodBankController.verifyBloodBank, if_pos h2]
    constructor
    · intro hcon
      rw [hmain] at hcon
      simp [failResp] at hcon
    · intro _
      rw [hmain]
      exact verifyByAdmin_actions s b a
  · have hmain : BloodBankController.verifyBloodBank s (some a) (some b)
        remarks
        = (BloodBankAdminAction.create (BloodBank.verifyByAdmin s b a).1
            { bloodBankId := b, adminId := a, actionType := "VERIFY",
              reason := remarks, previousStatus := "PENDING",
              newStatus := "VERIFIED" },
           okResp 200 ("Blood bank verified successfully")) := by
      simp only [BloodBankController.verifyBloodBank, if_neg h2]
    constructor
    · intro _
      rw [hmain]
      simp [BloodBankAdminAction.create, verifyByAdmin_actions]
    · intro hcon
      rw [hmain] at hcon
      simp [okResp] at hcon

/-- Witness for C4 amended: a successful verification on a PENDING bank
appends exactly one action record; a failed one on a VERIFIED bank
appends none. -/
theorem audit_success_only_amended_witness :
    (BloodBankController.verifyBloodBank storeBankPending (some 1) (some 2)
        none).1.actions.length = storeBankPending.actions.length + 1 ∧
    (BloodBankController.verifyBloodBank storeBankVerified (some 1) (some 2)
        none).1.actions = storeBankVerified.actions :=
  ⟨(audit_success_only_amended storeBankPending 1 2 none).1 (by decide),
   (audit_success_only_amended storeBankVerified 1 2 none).2 (by decide)⟩

/-- Witness for C9: appending one entry to a one-entry collection keeps
the original entry at its position and only extends the list. -/
theorem audit_append_only_witness :
    (∃ tail, auditRun [auditE0] [AuditOp.create auditD0 5]
      = [auditE0] ++ tail) ∧
    (auditRun [auditE0] [AuditOp.create auditD0 5])[0]? = some auditE0 :=
  ⟨(audit_append_only [AuditOp.create auditD0 5] [auditE0]).1,
   (audit_append_only [AuditOp.create auditD0 5] [auditE0]).2 0 auditE0
     (by decide)⟩
